import Mathlib

set_option maxHeartbeats 1000000

/- Shallow embedding of the meeting_agent repository: the conversation engine
   (src/services/conversation_engine.py), the time parsing service
   (src/services/time_parsing_service.py), and the data model
   (src/models/chatbot_models.py).

   Modelling conventions:
   * Python datetimes are integer minute counts since an epoch that falls on a
     Monday at 00:00 (so Python's `weekday()` of a date is the day count mod 7);
     Python timedeltas are integer minute counts.
   * External collaborators are parameters of the `Env` structure: the dateutil
     fuzzy date parse (`parser.parse(text, fuzzy=True)`, with the source's
     surrounding try/except folding exceptions into `none`), the C strftime
     behind the long `%A, %B %d at %I:%M %p` format (needs locale/calendar
     name tables), the Google calendar slot query, and event creation.  The
     service's captured `self.now` and the engine's `datetime.now()` are both
     modelled by the single `Env.now` field.
   * Python exceptions escaping a modelled call are `Except PyErr`.
   * The float `confidence` accumulator of the parser is not modelled
     (floating point); no claim mentions it.
   * The `\b`-anchored regular expressions of the source are modelled by
     hand-rolled scanners over `List Char` that reproduce `re.search`
     semantics (leftmost position, greedy groups with backtracking) for the
     concrete patterns appearing in the source. -/

/-- Python exception kinds that the modelled code can raise. -/
inductive PyErr where
  | typeError
  | valueError
  | attributeError
  | overflowError
deriving DecidableEq

/-- Python datetime: minutes since an epoch falling on a Monday at 00:00. -/
structure DateTime where
  minutes : Int
deriving DecidableEq

/-- Adding a timedelta of `d` minutes to a datetime. -/
def DateTime.addMin (t : DateTime) (d : Int) : DateTime := ⟨t.minutes + d⟩

/-- The `date()` part of a datetime, as a day count since the epoch.
    `Int.ediv` by the positive constant 1440 is floor division, matching the
    calendar decomposition of a Python datetime. -/
def DateTime.dateOf (t : DateTime) : Int := t.minutes / 1440

/-- The `hour` attribute of a datetime. -/
def DateTime.hourOf (t : DateTime) : Int := t.minutes % 1440 / 60

/-- The `minute` attribute of a datetime. -/
def DateTime.minuteOf (t : DateTime) : Int := t.minutes % 60

/-- `datetime.combine(day, time(h, m))`. -/
def combineAt (day : Int) (h m : Nat) : DateTime := ⟨day * 1440 + h * 60 + m⟩

/-- Python `date.weekday()` (Monday = 0); the epoch is a Monday. -/
def weekdayOfDate (d : Int) : Int := d % 7

/-- `dt.replace(hour := h, minute := 0, second := 0, microsecond := 0)`. -/
def replaceHourZero (t : DateTime) (h : Nat) : DateTime := ⟨t.dateOf * 1440 + h * 60⟩

/-- An object passed where the time parser expects a calendar event.  The
    engine passes `TimeSlot`s here (duck typing); `title = none` models an
    object lacking the `title` attribute, whose access raises
    `AttributeError`. -/
structure PyEvent where
  title : Option String
  start_time : DateTime
  end_time : DateTime
deriving DecidableEq

/-- models/chatbot_models.py `CalendarEvent`. -/
structure CalendarEvent where
  id : Option String
  title : String
  start_time : DateTime
  end_time : DateTime
  description : Option String
  attendees : Option (List String)
deriving DecidableEq

/-- models/chatbot_models.py `TimeSlot`. -/
structure TimeSlot where
  start_time : DateTime
  end_time : DateTime
  is_available : Bool
  conflict_reason : Option String
deriving DecidableEq

/-- A `TimeSlot` viewed as the duck-typed object the engine hands to the time
    parser as a "context event": it has start/end but no `title` attribute. -/
def TimeSlot.asPyEvent (s : TimeSlot) : PyEvent := ⟨none, s.start_time, s.end_time⟩

/-- models/chatbot_models.py `CalendarEvent` as a parser context event. -/
def CalendarEvent.asPyEvent (e : CalendarEvent) : PyEvent :=
  ⟨some e.title, e.start_time, e.end_time⟩

/-- models/chatbot_models.py `MeetingRequest`.  `duration_minutes` is a plain
    Python int (required field); the other fields are optional. -/
structure MeetingRequest where
  duration_minutes : Int
  preferred_date : Option DateTime
  preferred_time_range : Option String
  specific_time : Option DateTime
  attendees : Option (List String)
  title : Option String
  description : Option String
deriving DecidableEq

/-- models/chatbot_models.py `ConversationState`. -/
inductive ConversationState where
  | initial
  | collecting_duration
  | collecting_time_preference
  | checking_availability
  | confirming_slot
  | scheduling
  | completed
  | error
deriving DecidableEq

/-- models/chatbot_models.py `ConversationContext`, restricted to the fields
    the modelled functions read or write (`session_id`,
    `conversation_history` and `clarification_needed` are carried around but
    never consulted by `_process_conversation_turn` or its handlers). -/
structure ConversationContext where
  state : ConversationState
  meeting_request : Option MeetingRequest
  current_available_slots : List TimeSlot
  last_user_input : Option String
deriving DecidableEq

/-- The sparse `extracted_info` mapping produced by the LLM collaborator.
    A `some` field models the key being present; `datetime.fromisoformat` of
    the date-valued entries is folded into the modelled `DateTime` values. -/
structure ExtractedInfo where
  duration_minutes : Option Int
  preferred_date : Option DateTime
  preferred_time_range : Option String
  specific_time : Option DateTime
  title : Option String
  description : Option String
  attendees : Option (List String)
deriving DecidableEq

/-- The result dictionary of `_process_conversation_turn`:
    response text, next state, optional suggested actions, and the
    `requires_clarification` flag (read with `.get(..., False)`). -/
structure TurnResult where
  response : String
  next_state : ConversationState
  suggested_actions : Option (List String)
  requires_clarification : Bool
deriving DecidableEq

/-- The time expression dictionary built by `parse_time_expression`
    (the float `confidence` entry is not modelled). -/
structure TimeExpression where
  specific_time : Option DateTime
  preferred_date : Option DateTime
  preferred_time_range : Option String
  relative_offset : Option Int
  deadline_reference : Option DateTime
  context_event : Option PyEvent
deriving DecidableEq

/-- Decidable equality for `Except`, needed to `decide` concrete runs. -/
instance {ε α : Type} [DecidableEq ε] [DecidableEq α] : DecidableEq (Except ε α) := fun a b =>
  match a, b with
  | .ok x, .ok y =>
    if h : x = y then .isTrue (by rw [h]) else .isFalse (by simp [h])
  | .error x, .error y =>
    if h : x = y then .isTrue (by rw [h]) else .isFalse (by simp [h])
  | .ok _, .error _ => .isFalse (by simp)
  | .error _, .ok _ => .isFalse (by simp)

/-- External collaborators and ambient state of the program. -/
structure Env where
  now : DateTime
  fuzzyDate : String → Option DateTime
  fmtLong : DateTime → String
  getAvailableSlots : DateTime → DateTime → Int → List TimeSlot
  createEvent : MeetingRequest → String → Option CalendarEvent

/- ------------------------------------------------------------------ -/
/- String machinery shared by the regex-like scanners.                 -/
/- ------------------------------------------------------------------ -/

/-- Python `\s` for the ASCII inputs at hand. -/
def pyIsSpace (c : Char) : Bool :=
  c = ' ' || c = '\t' || c = '\n' || c = '\r' || c = '\x0b' || c = '\x0c'

/-- Python `\w` (ASCII). -/
def isWordChar (c : Char) : Bool := c.isAlphanum || c = '_'

/-- Whether the character before the current scan position is a word char. -/
def wordCharOpt : Option Char → Bool
  | none => false
  | some c => isWordChar c

/-- A `\b` word boundary after a word character, looking at what follows. -/
def wordBoundary : List Char → Bool
  | [] => true
  | c :: _ => !isWordChar c

/-- Python substring test `needle in hay`. -/
def pyIn (needle : List Char) : List Char → Bool
  | [] => needle.isEmpty
  | c :: cs => needle.isPrefixOf (c :: cs) || pyIn needle cs

/-- Helper of `pySplit`: accumulates the current word (reversed). -/
def pySplitAux : List Char → List Char → List (List Char)
  | [], acc => if acc.isEmpty then [] else [acc.reverse]
  | c :: cs, acc =>
    if pyIsSpace c then
      if acc.isEmpty then pySplitAux cs [] else acc.reverse :: pySplitAux cs []
    else pySplitAux cs (c :: acc)

/-- Python `str.split()`: split on whitespace, dropping empty pieces. -/
def pySplit (cs : List Char) : List (List Char) := pySplitAux cs []

/-- Lower-case a character list (Python `str.lower()` for ASCII). -/
def pyLower (cs : List Char) : List Char := cs.map Char.toLower

/-- Case-insensitive match of a (lower-case) literal keyword as a prefix,
    requiring a `\b` boundary right after it. -/
def ciPrefixBounded : List Char → List Char → Bool
  | [], rest => wordBoundary rest
  | _ :: _, [] => false
  | k :: ks, c :: cs => (c.toLower = k) && ciPrefixBounded ks cs

/-- Case-insensitive match of a (lower-case) literal keyword as a prefix,
    with no boundary requirement after it. -/
def ciPrefixPlain : List Char → List Char → Bool
  | [], _ => true
  | _ :: _, [] => false
  | k :: ks, c :: cs => (c.toLower = k) && ciPrefixPlain ks cs

/-- `re.search(r'\bkw\b', text, re.IGNORECASE) is not None` for a literal
    keyword `kw` that starts and ends with a word character. -/
def kwScan (kw : List Char) : Option Char → List Char → Bool
  | _, [] => false
  | prev, c :: cs =>
    ((!wordCharOpt prev) && ciPrefixBounded kw (c :: cs)) || kwScan kw (some c) cs

/-- Numeric value of a digit run. -/
def digitsToNat (ds : List Char) : Nat :=
  ds.foldl (fun a c => a * 10 + (c.toNat - 48)) 0

/-- Value of a single digit character. -/
def digVal (c : Char) : Nat := c.toNat - 48

/-- Value of a two-digit group. -/
def twoDig (a b : Char) : Nat := digVal a * 10 + digVal b

/- ------------------------------------------------------------------ -/
/- time_parsing_service.py : _extract_specific_time                    -/
/- ------------------------------------------------------------------ -/

/-- The `(AM|PM|am|pm)\b` tail of the 12-hour pattern, preceded by `\s*`
    (greedily consuming whitespace is exact here because no whitespace
    character can start the alternation).  Returns `isPM`. -/
def ampmTail (r : List Char) : Option Bool :=
  match r.dropWhile pyIsSpace with
  | 'A' :: 'M' :: t => if wordBoundary t then some false else none
  | 'a' :: 'm' :: t => if wordBoundary t then some false else none
  | 'P' :: 'M' :: t => if wordBoundary t then some true else none
  | 'p' :: 'm' :: t => if wordBoundary t then some true else none
  | _ => none

/-- The `:?(\d{2})?\s*(AM|PM|am|pm)\b` tail of the 12-hour pattern, in the
    greedy order of the regex engine: colon with minute group, colon without
    group, minute group without colon, neither.  Returns (minute, isPM). -/
def timeTail (rest : List Char) : Option (Nat × Bool) :=
  (match rest with
   | ':' :: a :: b :: r =>
     if a.isDigit && b.isDigit then (ampmTail r).map (fun p => (twoDig a b, p)) else none
   | _ => none) <|>
  (match rest with
   | ':' :: r => (ampmTail r).map (fun p => (0, p))
   | _ => none) <|>
  (match rest with
   | a :: b :: r =>
     if a.isDigit && b.isDigit then (ampmTail r).map (fun p => (twoDig a b, p)) else none
   | _ => none) <|>
  (ampmTail rest).map (fun p => (0, p))

/-- One-position attempt of `\b(\d{1,2}):?(\d{2})?\s*(AM|PM|am|pm)\b`:
    the hour group is greedy (two digits first, then one). -/
def tryTime1At (c : Char) (cs : List Char) : Option (Nat × Nat × Bool) :=
  if c.isDigit then
    match cs with
    | d :: cs2 =>
      if d.isDigit then
        ((timeTail cs2).map (fun (m, p) => (twoDig c d, m, p))) <|>
        ((timeTail cs).map (fun (m, p) => (digVal c, m, p)))
      else (timeTail cs).map (fun (m, p) => (digVal c, m, p))
    | [] => none
  else none

/-- `re.search` of the 12-hour pattern: scan positions left to right,
    requiring a word boundary before the hour digits. -/
def scanTime1 : Option Char → List Char → Option (Nat × Nat × Bool)
  | _, [] => none
  | prev, c :: cs =>
    (if !wordCharOpt prev then tryTime1At c cs else none) <|> scanTime1 (some c) cs

/-- One-position attempt of `\b(\d{1,2}):(\d{2})\b` (hour group greedy). -/
def tryTime2At (c : Char) (cs : List Char) : Option (Nat × Nat) :=
  if c.isDigit then
    (match cs with
     | d :: ':' :: e :: f :: r =>
       if d.isDigit && e.isDigit && f.isDigit && wordBoundary r then
         some (twoDig c d, twoDig e f)
       else none
     | _ => none) <|>
    (match cs with
     | ':' :: e :: f :: r =>
       if e.isDigit && f.isDigit && wordBoundary r then some (digVal c, twoDig e f)
       else none
     | _ => none)
  else none

/-- `re.search` of the 24-hour pattern `\b(\d{1,2}):(\d{2})\b`. -/
def scanTime2 : Option Char → List Char → Option (Nat × Nat)
  | _, [] => none
  | prev, c :: cs =>
    (if !wordCharOpt prev then tryTime2At c cs else none) <|> scanTime2 (some c) cs

/-- time_parsing_service.py `_extract_specific_time`: 12-hour pattern first
    (converting to 24-hour: PM adds 12 except for 12, 12 AM becomes 0, and
    `time(hour, minute)` raises `ValueError` outside 0..23 / 0..59), then the
    24-hour pattern with an explicit bounds check.  Only the first match of a
    pattern is considered, as with `re.search`. -/
def extract_specific_time (env : Env) (text : String) : Except PyErr (Option DateTime) :=
  match scanTime1 none text.toList with
  | some (h, m, isPM) =>
    let h24 : Nat :=
      if isPM && h ≠ 12 then h + 12
      else if !isPM && h = 12 then 0
      else h
    if h24 ≤ 23 && m ≤ 59 then .ok (some (combineAt env.now.dateOf h24 m))
    else .error .valueError
  | none =>
    match scanTime2 none text.toList with
    | some (h, m) =>
      if h ≤ 23 && m ≤ 59 then .ok (some (combineAt env.now.dateOf h m)) else .ok none
    | none => .ok none

/- ------------------------------------------------------------------ -/
/- time_parsing_service.py : _get_next_weekday, _extract_date_reference -/
/- ------------------------------------------------------------------ -/

/-- time_parsing_service.py `_get_next_weekday`: the date (day count) of the
    next occurrence of `weekday`, rolling forward a full week when
    `days_ahead <= 0`. -/
def get_next_weekday (env : Env) (weekday : Int) : Int :=
  let days_ahead := weekday - weekdayOfDate env.now.dateOf
  let days_ahead := if days_ahead ≤ 0 then days_ahead + 7 else days_ahead
  (env.now.addMin (days_ahead * 1440)).dateOf

/-- The explicit keyword patterns of `_extract_date_reference`, in the
    source's dict order, paired with the date each resolves to. -/
def dateKeywordTable (env : Env) : List (String × Int) :=
  [("today", env.now.dateOf),
   ("tomorrow", (env.now.addMin 1440).dateOf),
   ("yesterday", (env.now.addMin (-1440)).dateOf),
   ("next monday", get_next_weekday env 0),
   ("next tuesday", get_next_weekday env 1),
   ("next wednesday", get_next_weekday env 2),
   ("next thursday", get_next_weekday env 3),
   ("next friday", get_next_weekday env 4),
   ("next saturday", get_next_weekday env 5),
   ("next sunday", get_next_weekday env 6)]

/-- First keyword of the table matching the text (case-insensitive,
    `\b`-delimited), giving its date. -/
def findDateKeyword (env : Env) (cs : List Char) : Option Int :=
  (dateKeywordTable env).findSome?
    (fun kv => if kwScan kv.1.toList none cs then some kv.2 else none)

/-- time_parsing_service.py `_extract_date_reference`: the dateutil fuzzy
    parse first (its result returned directly, exceptions giving `none`),
    then the explicit keyword table; keyword hits are combined with
    `time(9, 0)`. -/
def extract_date_reference (env : Env) (text : String) : Option DateTime :=
  match env.fuzzyDate text with
  | some d => some d
  | none =>
    match findDateKeyword env text.toList with
    | some day => some (combineAt day 9 0)
    | none => none

/- ------------------------------------------------------------------ -/
/- time_parsing_service.py : _extract_time_range, _extract_relative_time -/
/- ------------------------------------------------------------------ -/

/-- time_parsing_service.py `self.time_ranges` lookup (`dict.get`). -/
def time_ranges (name : String) : Option (Nat × Nat) :=
  if name = "morning" then some (6, 12)
  else if name = "afternoon" then some (12, 17)
  else if name = "evening" then some (17, 22)
  else if name = "night" then some (22, 6)
  else none

/-- time_parsing_service.py `_extract_time_range`: plain substring test of
    each range name against the lower-cased text, in dict order. -/
def extract_time_range (text : String) : Option String :=
  let low := pyLower text.toList
  if pyIn "morning".toList low then some "morning"
  else if pyIn "afternoon".toList low then some "afternoon"
  else if pyIn "evening".toList low then some "evening"
  else if pyIn "night".toList low then some "night"
  else none

/-- The `s?\b` tail of the `in N days?/weeks?/months?` patterns: an optional
    `s` (consumed when present, with backtracking against the boundary). -/
def unitSTail : List Char → Bool
  | [] => true
  | c :: r => if c.toLower = 's' then wordBoundary r else !isWordChar c

/-- One-position attempt of `in (\d+) unit s?\b` after the `\b`. -/
def tryInAt (unit : List Char) (ls : List Char) : Option Nat :=
  match ls with
  | i :: n :: ' ' :: rest =>
    if i.toLower = 'i' && n.toLower = 'n' then
      let ds := rest.takeWhile Char.isDigit
      if ds.isEmpty then none
      else
        match rest.drop ds.length with
        | ' ' :: rest2 =>
          if ciPrefixPlain unit rest2 && unitSTail (rest2.drop unit.length) then
            some (digitsToNat ds)
          else none
        | _ => none
    else none
  | _ => none

/-- `re.search(r'\bin (\d+) units?\b', text, re.IGNORECASE)`, returning the
    captured number. -/
def scanInUnit (unit : List Char) : Option Char → List Char → Option Nat
  | _, [] => none
  | prev, c :: cs =>
    (if !wordCharOpt prev then tryInAt unit (c :: cs) else none) <|>
    scanInUnit unit (some c) cs

/-- time_parsing_service.py `_extract_relative_time`: the relative patterns in
    dict order, first match winning (days, weeks × 7, months × 30); the
    matched day count is then passed to `timedelta(days=days)`, which raises
    `OverflowError` when it exceeds the 999999999-day bound of Python
    timedeltas (e.g. `in 1000000000 days`); within the bound the result
    timedelta is returned, modelled in minutes (days × 1440). -/
def extract_relative_time (text : String) : Except PyErr (Option Int) :=
  let cs := text.toList
  let days :=
    if kwScan "tomorrow".toList none cs then some (1 : Int)
    else if kwScan "next week".toList none cs then some 7
    else if kwScan "next month".toList none cs then some 30
    else
      match scanInUnit "day".toList none cs with
      | some n => some (n : Int)
      | none =>
        match scanInUnit "week".toList none cs with
        | some n => some ((n : Int) * 7)
        | none =>
          match scanInUnit "month".toList none cs with
          | some n => some ((n : Int) * 30)
          | none => none
  match days with
  | none => .ok none
  | some d => if d > 999999999 then .error .overflowError else .ok (some (d * 1440))

/- ------------------------------------------------------------------ -/
/- time_parsing_service.py : deadline and context event extraction      -/
/- ------------------------------------------------------------------ -/

/-- The `\s+(.+)` tail of the before/after patterns: at least one whitespace
    character, greedily, backtracking until the group can take at least one
    character that is not a newline; the group then runs to the end of the
    line. -/
def groupAfterSpaces (rest : List Char) : Option (List Char) :=
  let k := (rest.takeWhile pyIsSpace).length
  let rec go : Nat → Option (List Char)
    | 0 => none
    | j + 1 =>
      match rest.drop (j + 1) with
      | c :: cs => if c ≠ '\n' then some ((c :: cs).takeWhile (· ≠ '\n')) else go j
      | [] => go j
  go k

/-- `re.search(r'\bkw\s+(.+)', text, re.IGNORECASE)` for a literal keyword,
    returning the captured group. -/
def findPrepGroup (kw : List Char) : Option Char → List Char → Option (List Char)
  | _, [] => none
  | prev, c :: cs =>
    (if (!wordCharOpt prev) && ciPrefixPlain kw (c :: cs) then
       groupAfterSpaces ((c :: cs).drop kw.length)
     else none) <|>
    findPrepGroup kw (some c) cs

/-- The per-event loop of `_extract_deadline_reference`: the first event whose
    title contains any word of the reference text is the anchor; reading
    `title` off a duck-typed object without one raises `AttributeError`. -/
def deadlineLoop (words : List (List Char)) (isBefore : Bool) :
    List PyEvent → Except PyErr (Option DateTime)
  | [] => .ok none
  | ev :: rest =>
    match ev.title with
    | none => .error .attributeError
    | some t =>
      if words.any (fun w => pyIn w (pyLower t.toList)) then
        .ok (some (if isBefore then ev.start_time.addMin (-60)
                   else ev.end_time.addMin 60))
      else deadlineLoop words isBefore rest

/-- time_parsing_service.py `_extract_deadline_reference`: `before X` gives
    event start − 1h, `after X` gives event end + 1h; when either pattern
    matched, the event list is iterated (`for event in context_events`), which
    raises `TypeError` when the argument is `None`. -/
def extract_deadline_reference (text : String) (context_events : Option (List PyEvent)) :
    Except PyErr (Option DateTime) :=
  let beforeGrp := findPrepGroup "before".toList none text.toList
  let afterGrp := findPrepGroup "after".toList none text.toList
  match beforeGrp, afterGrp with
  | none, none => .ok none
  | _, _ =>
    let refText := beforeGrp.getD (afterGrp.getD [])
    match context_events with
    | none => .error .typeError
    | some evs => deadlineLoop (pySplit (pyLower refText)) beforeGrp.isSome evs

/-- The per-event loop of `_extract_context_event`: an event with at least two
    title words occurring verbatim among the text's words is returned. -/
def contextLoop (textWords : List (List Char)) :
    List PyEvent → Except PyErr (Option PyEvent)
  | [] => .ok none
  | ev :: rest =>
    match ev.title with
    | none => .error .attributeError
    | some t =>
      let eventWords := pySplit (pyLower t.toList)
      if 2 ≤ eventWords.countP (fun w => textWords.contains w) then .ok (some ev)
      else contextLoop textWords rest

/-- time_parsing_service.py `_extract_context_event`: iterates the event list
    unconditionally, so a `None` argument raises `TypeError`. -/
def extract_context_event (text : String) (context_events : Option (List PyEvent)) :
    Except PyErr (Option PyEvent) :=
  match context_events with
  | none => .error .typeError
  | some evs => contextLoop (pySplit (pyLower text.toList)) evs

/- ------------------------------------------------------------------ -/
/- time_parsing_service.py : parse_time_expression, resolve            -/
/- ------------------------------------------------------------------ -/

/-- time_parsing_service.py `parse_time_expression`.  Each extraction fills
    its slot only when its result is truthy; for datetimes, strings from the
    fixed range vocabulary, events and matched deadline anchors truthiness
    coincides with presence, while a zero relative timedelta is falsy and
    leaves the slot `None`.  The default of `context_events` is `None`. -/
def parse_time_expression (env : Env) (text : String)
    (context_events : Option (List PyEvent)) : Except PyErr TimeExpression := do
  let specific ← extract_specific_time env text
  let date_ref := extract_date_reference env text
  let time_range := extract_time_range text
  let relative ← extract_relative_time text
  let deadline ← extract_deadline_reference text context_events
  let context_event ← extract_context_event text context_events
  .ok { specific_time := specific
        preferred_date := date_ref
        preferred_time_range := time_range
        relative_offset :=
          match relative with
          | some d => if d = 0 then none else some d
          | none => none
        deadline_reference := deadline
        context_event := context_event }

/-- time_parsing_service.py `resolve_time_expression`: the if-chain over the
    expression's slots, each guard being Python truthiness (an empty string
    time-range label and a zero relative timedelta are falsy); an unknown
    time-range label falls back to the bare date. -/
def resolve_time_expression (env : Env) (e : TimeExpression) : Option DateTime :=
  match e.specific_time with
  | some t => some t
  | none =>
  match e.deadline_reference with
  | some t => some t
  | none =>
  match e.context_event with
  | some ev => some (ev.start_time.addMin (-60))
  | none =>
  match e.preferred_date with
  | some d =>
    match e.preferred_time_range with
    | some r =>
      if r = "" then some d
      else
        match time_ranges r with
        | some ab => some (replaceHourZero d ((ab.1 + ab.2) / 2))
        | none => some d
    | none => some d
  | none =>
  match e.relative_offset with
  | some off => if off = 0 then none else some (env.now.addMin off)
  | none => none

example : extract_time_range "Tuesday afternoon" = some "afternoon" := by decide
example : scanTime1 none "at 6 PM".toList = some (6, 0, true) := by decide
example : scanTime1 none "9:30 am".toList = some (9, 30, false) := by decide
example : scanTime1 none "130 pm".toList = some (1, 30, true) := by decide
example : scanTime1 none "Tuesday afternoon".toList = none := by decide
example : scanTime2 none "14:45".toList = some (14, 45) := by decide
example : scanTime2 none "123:45".toList = none := by decide
example : extract_relative_time "see you in 2 weeks" = .ok (some 20160) := by decide
example : extract_relative_time "tomorrow" = .ok (some 1440) := by decide
example : extract_relative_time "Tuesday afternoon" = .ok none := by decide
example : extract_relative_time "in 999999999 days" = .ok (some (999999999 * 1440)) := by decide
example : extract_relative_time "in 1000000000 days" = .error .overflowError := by decide
example : findPrepGroup "after".toList none "Tuesday afternoon".toList = none := by decide
example : findPrepGroup "before".toList none "before flight tomorrow".toList =
    some "flight tomorrow".toList := by decide

/- ------------------------------------------------------------------ -/
/- conversation_engine.py : helpers                                    -/
/- ------------------------------------------------------------------ -/

/-- conversation_engine.py `_update_meeting_request`: each extracted key that
    is present overwrites the corresponding field; absent keys leave the prior
    value untouched. -/
def update_meeting_request (m : MeetingRequest) (e : ExtractedInfo) : MeetingRequest :=
  { duration_minutes := e.duration_minutes.getD m.duration_minutes
    preferred_date :=
      match e.preferred_date with
      | some d => some d
      | none => m.preferred_date
    preferred_time_range :=
      match e.preferred_time_range with
      | some r => some r
      | none => m.preferred_time_range
    specific_time :=
      match e.specific_time with
      | some t => some t
      | none => m.specific_time
    title :=
      match e.title with
      | some t => some t
      | none => m.title
    description :=
      match e.description with
      | some d => some d
      | none => m.description
    attendees :=
      match e.attendees with
      | some a => some a
      | none => m.attendees }

/-- `MeetingRequest(duration_minutes=30)` as built at the top of
    `_process_conversation_turn` when the context has no meeting request. -/
def mkDefaultMR : MeetingRequest :=
  { duration_minutes := 30
    preferred_date := none
    preferred_time_range := none
    specific_time := none
    attendees := none
    title := none
    description := none }

/-- The Python truthiness test
    `context.meeting_request and context.meeting_request.duration_minutes`:
    a model instance is truthy, an int is truthy iff nonzero. -/
def durationTruthy (mr : Option MeetingRequest) : Bool :=
  match mr with
  | some m => m.duration_minutes ≠ 0
  | none => false

/-- Python `strftime('%I:%M %p')`: zero-padded 12-hour clock with AM/PM. -/
def pad2 (n : Int) : String := if n < 10 then "0" ++ toString n else toString n

/-- Formatted start time used by `_parse_slot_selection` for the literal
    time-of-day substring match. -/
def fmtTime12 (t : DateTime) : String :=
  pad2 ((t.hourOf + 11) % 12 + 1) ++ ":" ++ pad2 t.minuteOf ++
    (if t.hourOf < 12 then " AM" else " PM")

/-- One-position attempt of `option\s+(\d+)` (no word boundaries in the
    source pattern): the literal, at least one whitespace character, then a
    digit run. -/
def tryOptionAt (ls : List Char) : Option Nat :=
  if "option".toList.isPrefixOf ls then
    let r := ls.drop 6
    let ws := r.takeWhile pyIsSpace
    if ws.isEmpty then none
    else
      let ds := (r.drop ws.length).takeWhile Char.isDigit
      if ds.isEmpty then none else some (digitsToNat ds)
  else none

/-- `re.search(r'option\s+(\d+)', input.lower())`, returning the number. -/
def findOptionNum : List Char → Option Nat
  | [] => none
  | c :: cs => tryOptionAt (c :: cs) <|> findOptionNum cs

/-- conversation_engine.py `_parse_slot_selection`: an in-bounds
    `option N` reference (1-indexed) returns the N-th slot; otherwise the
    first slot whose formatted start time is a literal substring of the
    lower-cased input is returned. -/
def parse_slot_selection (user_input : String) (available_slots : List TimeSlot) :
    Option TimeSlot :=
  let low := pyLower user_input.toList
  let byOption :=
    match findOptionNum low with
    | some n =>
      if 1 ≤ n && n ≤ available_slots.length then available_slots.get? (n - 1) else none
    | none => none
  byOption <|>
    available_slots.find? (fun slot => pyIn (pyLower (fmtTime12 slot.start_time).toList) low)

/-- conversation_engine.py `_format_slot_options`: 1-indexed
    `Option N: <formatted start>` lines joined by newlines. -/
def format_slot_options (env : Env) (slots : List TimeSlot) : String :=
  String.intercalate "\n"
    (((List.range slots.length).zip slots).map
      (fun p => "Option " ++ toString (p.1 + 1) ++ ": " ++ env.fmtLong p.2.start_time))

/-- conversation_engine.py `_suggest_alternatives`: the first two fixed
    suggestions joined by a space (the context argument is unused). -/
def suggest_alternatives : String :=
  "Would you like to try a different time of day? How about scheduling for next week?"

/- ------------------------------------------------------------------ -/
/- conversation_engine.py : state handlers                             -/
/- ------------------------------------------------------------------ -/

/-- conversation_engine.py `_handle_initial_state`. -/
def handle_initial_state (ctx : ConversationContext) (llmText : String) : TurnResult :=
  if durationTruthy ctx.meeting_request then
    { response := llmText
      next_state := .collecting_time_preference
      suggested_actions := none
      requires_clarification := false }
  else
    { response := llmText
      next_state := .collecting_duration
      suggested_actions := none
      requires_clarification := true }

/-- conversation_engine.py `_handle_duration_collection`. -/
def handle_duration_collection (ctx : ConversationContext) (llmText : String) : TurnResult :=
  if durationTruthy ctx.meeting_request then
    { response := llmText
      next_state := .collecting_time_preference
      suggested_actions := none
      requires_clarification := false }
  else
    { response := llmText
      next_state := .collecting_duration
      suggested_actions := none
      requires_clarification := true }

/-- conversation_engine.py `_handle_time_preference_collection`: parse the
    latest raw input together with the current available slots (duck-typed as
    context events), resolve, and either store the resolved time and advance
    to availability checking or loop with the clarification flag.  Assigning
    `specific_time` on a `None` meeting request would raise
    `AttributeError`. -/
def handle_time_preference_collection (env : Env) (ctx : ConversationContext)
    (llmText : String) : Except PyErr (TurnResult × ConversationContext) := do
  let expr ← parse_time_expression env (ctx.last_user_input.getD "")
    (some (ctx.current_available_slots.map TimeSlot.asPyEvent))
  match resolve_time_expression env expr with
  | some t =>
    match ctx.meeting_request with
    | none => .error .attributeError
    | some m =>
      .ok ({ response := llmText
             next_state := .checking_availability
             suggested_actions := none
             requires_clarification := false },
           { ctx with meeting_request := some { m with specific_time := some t } })
  | none =>
    .ok ({ response := llmText
           next_state := .collecting_time_preference
           suggested_actions := none
           requires_clarification := true }, ctx)

/-- conversation_engine.py `_handle_availability_check`: window start is
    `specific_time` when set, else now + 1 hour; window end is start + 7 days;
    slots are filtered to available ones, stored on the context, and either
    the first three are presented with matching `Option N` quick replies or
    the state regresses to time-preference collection. -/
def handle_availability_check (env : Env) (ctx : ConversationContext) :
    TurnResult × ConversationContext :=
  match ctx.meeting_request with
  | none =>
    ({ response := "I need more information to check availability. What kind of meeting are you looking to schedule?"
       next_state := .initial
       suggested_actions := none
       requires_clarification := true }, ctx)
  | some m =>
    let start_date := m.specific_time.getD (env.now.addMin 60)
    let end_date := start_date.addMin 10080
    let available_slots := env.getAvailableSlots start_date end_date m.duration_minutes
    let avail := available_slots.filter (fun s => s.is_available)
    let ctx' := { ctx with current_available_slots := avail }
    if avail.isEmpty then
      ({ response := "I don\x27t see any available slots in the next week. " ++ suggest_alternatives
         next_state := .collecting_time_preference
         suggested_actions := none
         requires_clarification := true }, ctx')
    else
      let slot_options := avail.take 3
      ({ response := "Great! I found some available times:\n" ++
           format_slot_options env slot_options ++ "\nWhich one works for you?"
         next_state := .confirming_slot
         suggested_actions :=
           some ((List.range slot_options.length).map (fun i => "Option " ++ toString (i + 1)))
         requires_clarification := false }, ctx')

/-- conversation_engine.py `_handle_slot_confirmation`: on a parsed selection
    the chosen slot's start becomes `specific_time` and the state advances to
    scheduling; otherwise the state loops with the clarification flag.
    Touching the meeting request when it is `None` would raise
    `AttributeError`. -/
def handle_slot_confirmation (env : Env) (ctx : ConversationContext) :
    Except PyErr (TurnResult × ConversationContext) :=
  match parse_slot_selection (ctx.last_user_input.getD "") ctx.current_available_slots with
  | some slot =>
    match ctx.meeting_request with
    | none => .error .attributeError
    | some m =>
      .ok ({ response := "Perfect! I\x27ll schedule your " ++ toString m.duration_minutes ++
               "-minute meeting for " ++ env.fmtLong slot.start_time ++ ". Is that correct?"
             next_state := .scheduling
             suggested_actions := none
             requires_clarification := false },
           { ctx with meeting_request := some { m with specific_time := some slot.start_time } })
  | none =>
    .ok ({ response := "I didn\x27t understand your choice. Please select one of the available options or let me know if you\x27d like to see different times."
           next_state := .confirming_slot
           suggested_actions := none
           requires_clarification := true }, ctx)

/-- conversation_engine.py `_handle_scheduling`: without a specific time the
    state regresses to time-preference collection; otherwise event creation is
    requested from the calendar collaborator, success completing the session
    and a `None` result entering the terminal error state with a fixed apology
    text. -/
def handle_scheduling (env : Env) (ctx : ConversationContext) :
    TurnResult × ConversationContext :=
  match ctx.meeting_request with
  | none =>
    ({ response := "I need to know when you\x27d like to schedule the meeting. Please provide a specific time."
       next_state := .collecting_time_preference
       suggested_actions := none
       requires_clarification := true }, ctx)
  | some m =>
    match m.specific_time with
    | none =>
      ({ response := "I need to know when you\x27d like to schedule the meeting. Please provide a specific time."
         next_state := .collecting_time_preference
         suggested_actions := none
         requires_clarification := true }, ctx)
    | some _ =>
      match env.createEvent m (m.title.getD "Meeting") with
      | some event =>
        ({ response := "Excellent! I\x27ve successfully scheduled your meeting for " ++
             env.fmtLong event.start_time ++ ". You\x27ll receive a calendar invitation shortly."
           next_state := .completed
           suggested_actions := none
           requires_clarification := false }, ctx)
      | none =>
        ({ response := "I encountered an error while scheduling your meeting. Please try again or contact support if the issue persists."
           next_state := .error
           suggested_actions := none
           requires_clarification := true }, ctx)

/-- conversation_engine.py `_process_conversation_turn`: ensure a meeting
    request exists (defaulting the duration to 30), merge the extracted
    fields, then dispatch on the current state; the fallback branch covers the
    terminal states. -/
def process_conversation_turn (env : Env) (ctx : ConversationContext)
    (llmText : String) (extracted : ExtractedInfo) :
    Except PyErr (TurnResult × ConversationContext) :=
  let ctx :=
    if ctx.meeting_request.isNone then { ctx with meeting_request := some mkDefaultMR }
    else ctx
  let ctx :=
    { ctx with meeting_request := ctx.meeting_request.map (fun m => update_meeting_request m extracted) }
  match ctx.state with
  | .initial => .ok (handle_initial_state ctx llmText, ctx)
  | .collecting_duration => .ok (handle_duration_collection ctx llmText, ctx)
  | .collecting_time_preference => handle_time_preference_collection env ctx llmText
  | .checking_availability => .ok (handle_availability_check env ctx)
  | .confirming_slot => handle_slot_confirmation env ctx
  | .scheduling => .ok (handle_scheduling env ctx)
  | _ =>
    .ok ({ response := "I\x27m not sure how to help with that. Could you please tell me what you need?"
           next_state := .initial
           suggested_actions := none
           requires_clarification := true }, ctx)

/-- A concrete environment used by witnesses and counterexamples: now is the
    epoch Monday at 09:00, the fuzzy date parse never succeeds, and the
    calendar collaborators return nothing. -/
def testEnv : Env :=
  { now := ⟨540⟩
    fuzzyDate := fun _ => none
    fmtLong := fun _ => "<t>"
    getAvailableSlots := fun _ _ _ => []
    createEvent := fun _ _ => none }

example : parse_slot_selection "option 2"
    [⟨⟨600⟩, ⟨630⟩, true, none⟩, ⟨⟨660⟩, ⟨690⟩, true, none⟩, ⟨⟨720⟩, ⟨750⟩, true, none⟩] =
    some ⟨⟨660⟩, ⟨690⟩, true, none⟩ := by decide
example : parse_slot_selection "Option 4"
    [⟨⟨600⟩, ⟨630⟩, true, none⟩, ⟨⟨660⟩, ⟨690⟩, true, none⟩, ⟨⟨720⟩, ⟨750⟩, true, none⟩] =
    none := by decide
example : parse_slot_selection "the 10:00 AM one"
    [⟨⟨600⟩, ⟨630⟩, true, none⟩, ⟨⟨660⟩, ⟨690⟩, true, none⟩] =
    some ⟨⟨600⟩, ⟨630⟩, true, none⟩ := by decide
example : parse_time_expression testEnv "Tuesday afternoon" (some []) =
    .ok ⟨none, none, some "afternoon", none, none, none⟩ := by decide
example : parse_time_expression testEnv "hello" none = .error .typeError := by decide
example : parse_time_expression testEnv "99 PM" none = .error .valueError := by decide

/- ------------------------------------------------------------------ -/
/- Spec-side definitions and concrete fixtures                         -/
/- ------------------------------------------------------------------ -/

/-- Resolution priority as the specification words it: the first non-null
    candidate in the strict order absolute time, deadline anchor, context
    event start − 1h, preferred date (at the floor-midpoint hour of a paired
    time-range label), preferred date alone, relative offset from now; null
    when none is present.  Stated for comparison with
    `resolve_time_expression`, which instead tests Python truthiness. -/
def specResolvePriority (env : Env) (e : TimeExpression) : Option DateTime :=
  e.specific_time <|>
  e.deadline_reference <|>
  (e.context_event.map (fun ev => ev.start_time.addMin (-60))) <|>
  (e.preferred_date.map (fun d =>
    match e.preferred_time_range.bind time_ranges with
    | some ab => replaceHourZero d ((ab.1 + ab.2) / 2)
    | none => d)) <|>
  (e.relative_offset.map (fun off => env.now.addMin off))

/-- An LLM extraction with no fields present. -/
def emptyExtraction : ExtractedInfo := ⟨none, none, none, none, none, none, none⟩

/-- An LLM extraction carrying only `duration_minutes = 60`. -/
def extraction60 : ExtractedInfo := ⟨some 60, none, none, none, none, none, none⟩

/-- An LLM extraction carrying only `duration_minutes = 0` (a falsy int). -/
def extraction0 : ExtractedInfo := ⟨some 0, none, none, none, none, none, none⟩

/-- A calendar event titled "flight", starting next day 09:00. -/
def flightEvent : PyEvent := ⟨some "flight", ⟨1980⟩, ⟨2040⟩⟩

/-- Five available thirty-minute slots starting at 10:00 of the epoch day. -/
def fiveSlots : List TimeSlot :=
  [⟨⟨600⟩, ⟨630⟩, true, none⟩, ⟨⟨660⟩, ⟨690⟩, true, none⟩, ⟨⟨720⟩, ⟨750⟩, true, none⟩,
   ⟨⟨780⟩, ⟨810⟩, true, none⟩, ⟨⟨840⟩, ⟨870⟩, true, none⟩]

/-- Three available slots used by the slot-selection witness. -/
def threeSlots : List TimeSlot :=
  [⟨⟨600⟩, ⟨630⟩, true, none⟩, ⟨⟨660⟩, ⟨690⟩, true, none⟩, ⟨⟨720⟩, ⟨750⟩, true, none⟩]

/-- An environment whose availability collaborator returns five available
    slots regardless of the window. -/
def env5 : Env := { testEnv with getAvailableSlots := fun _ _ _ => fiveSlots }

/- ------------------------------------------------------------------ -/
/- Helper lemmas                                                       -/
/- ------------------------------------------------------------------ -/

/-- Merging the same extracted fields twice equals merging them once:
    each present key overwrites with the same value, each absent key keeps
    the already-kept value. -/
theorem update_mr_idem (m : MeetingRequest) (e : ExtractedInfo) :
    update_meeting_request (update_meeting_request m e) e = update_meeting_request m e := by
  rcases e with ⟨d, pd, ptr, st, ti, de, att⟩
  cases d <;> cases pd <;> cases ptr <;> cases st <;> cases ti <;> cases de <;> cases att <;> rfl

/-- A parsed expression never carries a zero relative offset: the extraction
    guard `if relative:` drops falsy timedeltas. -/
theorem parsed_relative_offset_ne_zero (env : Env) (text : String)
    (evs : Option (List PyEvent)) (ex : TimeExpression)
    (h : parse_time_expression env text evs = .ok ex) :
    ex.relative_offset ≠ some 0 := by
  unfold parse_time_expression at h
  cases hs : extract_specific_time env text with
  | error err => rw [hs] at h; simp [Bind.bind, Except.bind] at h
  | ok s =>
    rw [hs] at h
    cases hrel : extract_relative_time text with
    | error err => rw [hrel] at h; simp [Bind.bind, Except.bind] at h
    | ok rel =>
      rw [hrel] at h
      cases hd : extract_deadline_reference text evs with
      | error err => rw [hd] at h; simp [Bind.bind, Except.bind] at h
      | ok dl =>
        rw [hd] at h
        cases hc : extract_context_event text evs with
        | error err => rw [hc] at h; simp [Bind.bind, Except.bind] at h
        | ok ce =>
          rw [hc] at h
          simp only [Bind.bind, Except.bind, Except.ok.injEq] at h
          subst h
          cases rel with
          | none => simp
          | some dmin =>
            simp only []
            by_cases hz : dmin = 0 <;> simp [hz]

/-- On expressions without a zero relative offset, the source's
    truthiness-guarded resolution chain coincides with the specification's
    first-non-null priority chain. -/
theorem resolve_eq_spec_of_ne_zero (env : Env) (e : TimeExpression)
    (hro : e.relative_offset ≠ some 0) :
    resolve_time_expression env e = specResolvePriority env e := by
  rcases e with ⟨st, pd, ptr, ro, dl, ce⟩
  simp only [TimeExpression.relative_offset] at hro
  cases st <;> cases dl <;> cases ce <;>
    (first
      | (simp_all [resolve_time_expression, specResolvePriority, Option.orElse];
         cases pd <;> simp_all [Option.orElse])
      | simp_all [resolve_time_expression, specResolvePriority, Option.orElse])
  case none.none.none.none =>
    cases ro with
    | none => rfl
    | some off =>
      have : off ≠ 0 := by intro hc; exact hro (by rw [hc])
      simp [this]
  case none.none.none.some d =>
    cases ptr with
    | none => rfl
    | some r =>
      by_cases hr : r = ""
      · subst hr; simp [time_ranges]
      · simp [hr]
        cases time_ranges r <;> simp

/-- The context as it stands after the top of `_process_conversation_turn`:
    a meeting request is ensured (defaulting the duration to 30) and the
    extracted fields are merged into it. -/
def mergedCtx (ctx : ConversationContext) (e : ExtractedInfo) : ConversationContext :=
  { ctx with
    meeting_request := some (update_meeting_request (ctx.meeting_request.getD mkDefaultMR) e) }

/-- In `INITIAL`, a turn is the initial handler applied to the merged context. -/
theorem turn_in_initial (env : Env) (ctx : ConversationContext) (llm : String)
    (e : ExtractedInfo) (hstate : ctx.state = .initial) :
    process_conversation_turn env ctx llm e =
      .ok (handle_initial_state (mergedCtx ctx e) llm, mergedCtx ctx e) := by
  rcases ctx with ⟨st, mr, slots, li⟩
  simp only at hstate
  subst hstate
  cases mr <;> rfl

/-- In `COLLECTING_DURATION`, a turn is the duration handler applied to the
    merged context. -/
theorem turn_in_collecting_duration (env : Env) (ctx : ConversationContext) (llm : String)
    (e : ExtractedInfo) (hstate : ctx.state = .collecting_duration) :
    process_conversation_turn env ctx llm e =
      .ok (handle_duration_collection (mergedCtx ctx e) llm, mergedCtx ctx e) := by
  rcases ctx with ⟨st, mr, slots, li⟩
  simp only at hstate
  subst hstate
  cases mr <;> rfl

/-- In `COLLECTING_TIME_PREFERENCE`, a turn is the time-preference handler
    applied to the merged context. -/
theorem turn_in_time_preference (env : Env) (ctx : ConversationContext) (llm : String)
    (e : ExtractedInfo) (hstate : ctx.state = .collecting_time_preference) :
    process_conversation_turn env ctx llm e =
      handle_time_preference_collection env (mergedCtx ctx e) llm := by
  rcases ctx with ⟨st, mr, slots, li⟩
  simp only at hstate
  subst hstate
  cases mr <;> rfl

/-- In `CHECKING_AVAILABILITY`, a turn is the availability handler applied to
    the merged context. -/
theorem turn_in_checking_availability (env : Env) (ctx : ConversationContext) (llm : String)
    (e : ExtractedInfo) (hstate : ctx.state = .checking_availability) :
    process_conversation_turn env ctx llm e =
      .ok (handle_availability_check env (mergedCtx ctx e)) := by
  rcases ctx with ⟨st, mr, slots, li⟩
  simp only at hstate
  subst hstate
  cases mr <;> rfl

/-- In `CONFIRMING_SLOT`, a turn is the slot-confirmation handler applied to
    the merged context. -/
theorem turn_in_confirming_slot (env : Env) (ctx : ConversationContext) (llm : String)
    (e : ExtractedInfo) (hstate : ctx.state = .confirming_slot) :
    process_conversation_turn env ctx llm e =
      handle_slot_confirmation env (mergedCtx ctx e) := by
  rcases ctx with ⟨st, mr, slots, li⟩
  simp only at hstate
  subst hstate
  cases mr <;> rfl

/-- In `SCHEDULING`, a turn is the scheduling handler applied to the merged
    context. -/
theorem turn_in_scheduling (env : Env) (ctx : ConversationContext) (llm : String)
    (e : ExtractedInfo) (hstate : ctx.state = .scheduling) :
    process_conversation_turn env ctx llm e =
      .ok (handle_scheduling env (mergedCtx ctx e)) := by
  rcases ctx with ⟨st, mr, slots, li⟩
  simp only at hstate
  subst hstate
  cases mr <;> rfl

/- ------------------------------------------------------------------ -/
/- Claim theorems                                                      -/
/- ------------------------------------------------------------------ -/

/-- C7: for every weekday `w`, `_get_next_weekday` returns the next
    occurrence of `w` strictly after today: the result is in
    (today, today + 7], its weekday is `w`, and when today already has
    weekday `w` the result is exactly today + 7 days, never today. -/
theorem c7_next_weekday_strict (env : Env) (w : Int) (h0 : 0 ≤ w) (h7 : w < 7) :
    env.now.dateOf < get_next_weekday env w ∧
    get_next_weekday env w ≤ env.now.dateOf + 7 ∧
    weekdayOfDate (get_next_weekday env w) = w ∧
    (w = weekdayOfDate env.now.dateOf → get_next_weekday env w = env.now.dateOf + 7) := by
  simp only [get_next_weekday, weekdayOfDate, DateTime.addMin, DateTime.dateOf]
  rw [Int.add_mul_ediv_right _ _ (by norm_num : (1440 : Int) ≠ 0)]
  split_ifs with hc
  · exact ⟨by omega, by omega, by omega, fun hw => by omega⟩
  · exact ⟨by omega, by omega, by omega, fun hw => by omega⟩

/-- C7 witness: on the concrete environment whose now is the epoch Monday,
    `next monday` resolves to day 7, not day 0. -/
theorem c7_next_weekday_strict_witness : get_next_weekday testEnv 0 = testEnv.now.dateOf + 7 :=
  (c7_next_weekday_strict testEnv 0 (by norm_num) (by norm_num)).2.2.2 (by decide)

/-- C8: a time expression carrying only a time-range label (one of morning,
    afternoon, evening, night) with no absolute time, no preferred date, no
    deadline anchor, no context event and no relative offset resolves to
    null: a range label alone never anchors to a concrete timestamp. -/
theorem c8_range_alone_unresolved (env : Env) (e : TimeExpression) (r : String)
    (hr : e.preferred_time_range = some r)
    (_hlab : r = "morning" ∨ r = "afternoon" ∨ r = "evening" ∨ r = "night")
    (hst : e.specific_time = none) (hpd : e.preferred_date = none)
    (hdl : e.deadline_reference = none) (hce : e.context_event = none)
    (hro : e.relative_offset = none) :
    resolve_time_expression env e = none := by
  rcases e with ⟨st, pd, ptr, ro, dl, ce⟩
  simp_all [resolve_time_expression]

/-- C8 witness: the parsed expression of "Tuesday afternoon" (fuzzy parse
    failing) carries only the afternoon label and resolves to null. -/
theorem c8_range_alone_unresolved_witness :
    resolve_time_expression testEnv ⟨none, none, some "afternoon", none, none, none⟩ = none :=
  c8_range_alone_unresolved testEnv ⟨none, none, some "afternoon", none, none, none⟩
    "afternoon" rfl (Or.inr (Or.inl rfl)) rfl rfl rfl rfl rfl

/-- C10 (amended): with the reference-events argument omitted (None),
    `parse_time_expression` never returns a `TimeExpression`: it raises the
    exception of the specific-time extraction when that extraction itself
    raises (a `ValueError` from an out-of-range `time(...)` constructor),
    otherwise the exception of the relative-time extraction when that one
    raises (an `OverflowError` from `timedelta(days=...)` beyond the
    999999999-day bound), and otherwise `TypeError` from
    `_extract_context_event` iterating `None` unconditionally. -/
theorem c10_parse_default_raises_amended (env : Env) (text : String) :
    parse_time_expression env text none =
      (match extract_specific_time env text with
       | .error err => .error err
       | .ok _ =>
         match extract_relative_time text with
         | .error err => .error err
         | .ok _ => (.error .typeError : Except PyErr TimeExpression)) := by
  unfold parse_time_expression
  cases hs : extract_specific_time env text with
  | error err => simp [Bind.bind, Except.bind]
  | ok s =>
    simp only [Bind.bind, Except.bind]
    cases hrel : extract_relative_time text with
    | error err => simp
    | ok rel =>
      unfold extract_deadline_reference
      cases hb : findPrepGroup "before".toList none text.toList <;>
        cases ha : findPrepGroup "after".toList none text.toList <;>
        simp [extract_context_event]

/-- C10 counterexample: the raised exception is not always a `TypeError`:
    on "99 PM" the call raises `ValueError` (from `time(111, 0)`), and on
    "in 1000000000 days" it raises `OverflowError` (from
    `timedelta(days=1000000000)`), both before the context-event extraction
    runs. -/
theorem c10_not_typeerror_counterexample :
    parse_time_expression testEnv "99 PM" none = .error .valueError ∧
    parse_time_expression testEnv "in 1000000000 days" none = .error .overflowError ∧
    PyErr.valueError ≠ PyErr.typeError ∧
    PyErr.overflowError ≠ PyErr.typeError := by decide

/-- C2 (amended): for every parsed time expression, resolution follows the
    strict first-non-null priority order absolute time > deadline anchor >
    context event (start − 1h) > preferred date with range label (floor
    midpoint hour) > preferred date alone > relative offset from now, and
    returns null when none is present; in particular a parsed expression with
    both a deadline anchor and a relative offset but no absolute time always
    resolves to the deadline anchor. -/
theorem c2_resolution_priority_amended (env : Env) (text : String)
    (evs : Option (List PyEvent)) (ex : TimeExpression)
    (h : parse_time_expression env text evs = .ok ex) :
    resolve_time_expression env ex = specResolvePriority env ex ∧
    (∀ d off, ex.specific_time = none → ex.deadline_reference = some d →
      ex.relative_offset = some off → resolve_time_expression env ex = some d) ∧
    (ex.specific_time = none → ex.deadline_reference = none → ex.context_event = none →
      ex.preferred_date = none → ex.relative_offset = none →
      resolve_time_expression env ex = none) := by
  refine ⟨resolve_eq_spec_of_ne_zero env ex (parsed_relative_offset_ne_zero env text evs ex h),
    ?_, ?_⟩
  · intro d off hst hdl hro
    rcases ex with ⟨st, pd, ptr, ro, dl, ce⟩
    simp_all [resolve_time_expression]
  · intro hst hdl hce hpd hro
    rcases ex with ⟨st, pd, ptr, ro, dl, ce⟩
    simp_all [resolve_time_expression]

/-- C2 counterexample: the text "before flight tomorrow at 6 PM" (against an
    event titled "flight") produces both a deadline-anchor match (the event
    start − 1h, minute 1920) and a relative-offset match (+1 day), yet
    resolution returns the absolute clock time (minute 1080), not the
    deadline anchor: the claimed "deadline-anchor result is always returned"
    fails whenever an absolute time is also extracted. -/
theorem c2_absolute_over_deadline_counterexample :
    parse_time_expression testEnv "before flight tomorrow at 6 PM" (some [flightEvent]) =
      .ok ⟨some ⟨1080⟩, some ⟨1980⟩, none, some 1440, some ⟨1920⟩, none⟩ ∧
    resolve_time_expression testEnv
      ⟨some ⟨1080⟩, some ⟨1980⟩, none, some 1440, some ⟨1920⟩, none⟩ = some ⟨1080⟩ ∧
    (some (⟨1080⟩ : DateTime) ≠ some (⟨1920⟩ : DateTime)) ∧
    flightEvent.start_time.addMin (-60) = ⟨1920⟩ := by decide

/-- C2 witness: "before flight tomorrow" produces a deadline anchor and a
    relative offset and no absolute time, and resolves to the deadline
    anchor. -/
theorem c2_resolution_priority_witness :
    resolve_time_expression testEnv ⟨none, some ⟨1980⟩, none, some 1440, some ⟨1920⟩, none⟩ =
      some ⟨1920⟩ :=
  (c2_resolution_priority_amended testEnv "before flight tomorrow" (some [flightEvent])
    ⟨none, some ⟨1980⟩, none, some 1440, some ⟨1920⟩, none⟩ (by decide)).2.1
    ⟨1920⟩ 1440 rfl rfl rfl

/-- C1 (amended): in `INITIAL` and `COLLECTING_DURATION`, a turn advances to
    `COLLECTING_TIME_PREFERENCE` iff `duration_minutes` is truthy in the
    meeting request after merging the turn's extracted fields; when it is
    not, the next state is `COLLECTING_DURATION` — a self-loop only when the
    turn was already in `COLLECTING_DURATION` — with
    `requires_clarification = true`, and when it is, the clarification flag
    is clear. -/
theorem c1_duration_gate_amended (env : Env) (ctx : ConversationContext)
    (llm : String) (e : ExtractedInfo) (r : TurnResult) (c' : ConversationContext)
    (hstate : ctx.state = .initial ∨ ctx.state = .collecting_duration)
    (h : process_conversation_turn env ctx llm e = .ok (r, c')) :
    (r.next_state = .collecting_time_preference ↔ durationTruthy c'.meeting_request) ∧
    (durationTruthy c'.meeting_request = false →
      r.next_state = .collecting_duration ∧ r.requires_clarification = true) ∧
    (durationTruthy c'.meeting_request = true → r.requires_clarification = false) := by
  rcases hstate with hs | hs
  · rw [turn_in_initial env ctx llm e hs] at h
    simp only [Except.ok.injEq, Prod.mk.injEq] at h
    obtain ⟨hr, hc⟩ := h
    subst hr
    subst hc
    by_cases hd : durationTruthy (mergedCtx ctx e).meeting_request <;>
      simp [handle_initial_state, hd]
  · rw [turn_in_collecting_duration env ctx llm e hs] at h
    simp only [Except.ok.injEq, Prod.mk.injEq] at h
    obtain ⟨hr, hc⟩ := h
    subst hr
    subst hc
    by_cases hd : durationTruthy (mergedCtx ctx e).meeting_request <;>
      simp [handle_duration_collection, hd]

/-- C1 counterexample: a turn in `INITIAL` whose merged `duration_minutes` is
    falsy (extraction supplied 0) moves to `COLLECTING_DURATION`, so the
    claimed "the state loops (stays the same)" fails for `INITIAL`. -/
theorem c1_initial_no_selfloop_counterexample :
    process_conversation_turn testEnv ⟨.initial, none, [], none⟩ "resp" extraction0 =
      .ok (⟨"resp", .collecting_duration, none, true⟩,
        ⟨.initial, some ⟨0, none, none, none, none, none, none⟩, [], none⟩) ∧
    ConversationState.collecting_duration ≠ ConversationState.initial := by decide

/-- C1 witness: the claim's scenario — extraction `{duration_minutes: 60}` in
    `COLLECTING_DURATION` — yields next state `COLLECTING_TIME_PREFERENCE`
    with no clarification request. -/
theorem c1_duration_gate_witness :
    (TurnResult.next_state ⟨"ok", .collecting_time_preference, none, false⟩ =
        .collecting_time_preference ↔
      durationTruthy (ConversationContext.meeting_request
        ⟨.collecting_duration, some ⟨60, none, none, none, none, none, none⟩, [], none⟩)) ∧
    (durationTruthy (ConversationContext.meeting_request
        ⟨.collecting_duration, some ⟨60, none, none, none, none, none, none⟩, [], none⟩) = false →
      TurnResult.next_state ⟨"ok", .collecting_time_preference, none, false⟩ =
          .collecting_duration ∧
        TurnResult.requires_clarification ⟨"ok", .collecting_time_preference, none, false⟩ =
          true) ∧
    (durationTruthy (ConversationContext.meeting_request
        ⟨.collecting_duration, some ⟨60, none, none, none, none, none, none⟩, [], none⟩) = true →
      TurnResult.requires_clarification ⟨"ok", .collecting_time_preference, none, false⟩ =
        false) :=
  c1_duration_gate_amended testEnv ⟨.collecting_duration, none, [], none⟩ "ok" extraction60
    ⟨"ok", .collecting_time_preference, none, false⟩
    ⟨.collecting_duration, some ⟨60, none, none, none, none, none, none⟩, [], none⟩
    (Or.inr rfl) (by decide)

/-- C9: merging the same extracted fields is last-write-wins per field and
    idempotent; submitting the same extraction twice while in
    `COLLECTING_DURATION` (the second submission processed in the same
    state) leaves the meeting request unchanged after the second application
    and produces the same next state and clarification flag. -/
theorem c9_merge_idempotent (env : Env) (ctx : ConversationContext)
    (llm llm2 : String) (e : ExtractedInfo)
    (hstate : ctx.state = .collecting_duration) :
    (∀ m, update_meeting_request (update_meeting_request m e) e = update_meeting_request m e) ∧
    ∃ r₁ c₁ r₂ c₂,
      process_conversation_turn env ctx llm e = .ok (r₁, c₁) ∧
      process_conversation_turn env { c₁ with state := .collecting_duration } llm2 e =
        .ok (r₂, c₂) ∧
      c₂.meeting_request = c₁.meeting_request ∧
      r₂.next_state = r₁.next_state ∧
      r₂.requires_clarification = r₁.requires_clarification := by
  refine ⟨fun m => update_mr_idem m e, ?_⟩
  refine ⟨_, _, _, _, turn_in_collecting_duration env ctx llm e hstate,
    turn_in_collecting_duration env _ llm2 e rfl, ?_, ?_, ?_⟩
  · simp [mergedCtx, update_mr_idem]
  · simp only [handle_duration_collection, mergedCtx, Option.getD_some, update_mr_idem]
    by_cases hd :
        durationTruthy (some (update_meeting_request (ctx.meeting_request.getD mkDefaultMR) e)) <;>
      simp [hd]
  · simp only [handle_duration_collection, mergedCtx, Option.getD_some, update_mr_idem]
    by_cases hd :
        durationTruthy (some (update_meeting_request (ctx.meeting_request.getD mkDefaultMR) e)) <;>
      simp [hd]

/-- C9 witness: a concrete double submission of `{duration_minutes: 60}` in
    `COLLECTING_DURATION`. -/
theorem c9_merge_idempotent_witness :
    (∀ m, update_meeting_request (update_meeting_request m extraction60) extraction60 =
      update_meeting_request m extraction60) ∧
    ∃ r₁ c₁ r₂ c₂,
      process_conversation_turn testEnv ⟨.collecting_duration, none, [], none⟩ "a" extraction60 =
        .ok (r₁, c₁) ∧
      process_conversation_turn testEnv { c₁ with state := .collecting_duration } "b"
        extraction60 = .ok (r₂, c₂) ∧
      c₂.meeting_request = c₁.meeting_request ∧
      r₂.next_state = r₁.next_state ∧
      r₂.requires_clarification = r₁.requires_clarification :=
  c9_merge_idempotent testEnv ⟨.collecting_duration, none, [], none⟩ "a" "b" extraction60 rfl

/-- C3: only the `next <weekday>` forms appear among the explicit
    date-keyword rules, so a text on which the fuzzy library parse fails and
    that contains none of the explicit keywords (in particular a bare weekday
    such as "Tuesday") yields no date reference; and whenever no concrete
    timestamp is resolvable from the input, a turn in
    `COLLECTING_TIME_PREFERENCE` loops there with
    `requires_clarification = true`. -/
theorem c3_bare_weekday_loop (env : Env) (ctx : ConversationContext) (llm text : String)
    (e : ExtractedInfo) (r : TurnResult) (c' : ConversationContext) (ex : TimeExpression)
    (hstate : ctx.state = .collecting_time_preference)
    (hinput : ctx.last_user_input = some text)
    (hfuzzy : env.fuzzyDate text = none)
    (hkw : findDateKeyword env text.toList = none)
    (hparse : parse_time_expression env text
      (some (ctx.current_available_slots.map TimeSlot.asPyEvent)) = .ok ex)
    (hres : resolve_time_expression env ex = none)
    (h : process_conversation_turn env ctx llm e = .ok (r, c')) :
    extract_date_reference env text = none ∧
    r.next_state = .collecting_time_preference ∧
    r.requires_clarification = true := by
  refine ⟨?_, ?_⟩
  · unfold extract_date_reference
    rw [hfuzzy, hkw]
  · rw [turn_in_time_preference env ctx llm e hstate] at h
    simp only [handle_time_preference_collection, mergedCtx, hinput, Option.getD_some,
      Bind.bind, Except.bind, hparse, hres] at h
    simp only [Except.ok.injEq, Prod.mk.injEq] at h
    obtain ⟨hr, _⟩ := h
    subst hr
    exact ⟨rfl, rfl⟩

/-- C3 witness: the claim's scenario — "Tuesday afternoon" in
    `COLLECTING_TIME_PREFERENCE`, with the fuzzy parse missing — parses to an
    expression holding only the afternoon label, resolves to nothing, and the
    turn loops with the clarification flag set. -/
theorem c3_bare_weekday_loop_witness :
    extract_date_reference testEnv "Tuesday afternoon" = none ∧
    TurnResult.next_state ⟨"hm", .collecting_time_preference, none, true⟩ =
      .collecting_time_preference ∧
    TurnResult.requires_clarification ⟨"hm", .collecting_time_preference, none, true⟩ = true :=
  c3_bare_weekday_loop testEnv
    ⟨.collecting_time_preference, some mkDefaultMR, [], some "Tuesday afternoon"⟩
    "hm" "Tuesday afternoon" emptyExtraction
    ⟨"hm", .collecting_time_preference, none, true⟩
    ⟨.collecting_time_preference, some mkDefaultMR, [], some "Tuesday afternoon"⟩
    ⟨none, none, some "afternoon", none, none, none⟩
    rfl rfl rfl (by decide) (by decide) (by decide) (by decide)

/-- C4: a turn in `CHECKING_AVAILABILITY` queries slots over the window
    [specific time if set else now + 1h, start + 7 days] for the merged
    request's duration, keeps only slots whose availability flag is true
    (storing them on the context); when the filtered list is non-empty the
    first at-most-3 slots are presented, the suggested actions are exactly
    `Option 1 .. Option k` for the `k = min 3 n` presented slots, and the
    state advances to `CONFIRMING_SLOT`; when it is empty the state
    regresses to `COLLECTING_TIME_PREFERENCE`. -/
theorem c4_availability_check (env : Env) (ctx : ConversationContext) (llm : String)
    (e : ExtractedInfo) (m : MeetingRequest) (r : TurnResult) (c' : ConversationContext)
    (avail : List TimeSlot)
    (hstate : ctx.state = .checking_availability)
    (hmr : ctx.meeting_request = some m)
    (havail : avail = (env.getAvailableSlots
        ((update_meeting_request m e).specific_time.getD (env.now.addMin 60))
        (((update_meeting_request m e).specific_time.getD (env.now.addMin 60)).addMin 10080)
        (update_meeting_request m e).duration_minutes).filter (fun s => s.is_available))
    (h : process_conversation_turn env ctx llm e = .ok (r, c')) :
    c'.current_available_slots = avail ∧
    (avail ≠ [] →
      r.next_state = .confirming_slot ∧
      r.requires_clarification = false ∧
      r.suggested_actions = some ((List.range (min 3 avail.length)).map
        (fun i => "Option " ++ toString (i + 1))) ∧
      r.response = "Great! I found some available times:\n" ++
        format_slot_options env (avail.take 3) ++ "\nWhich one works for you?") ∧
    (avail = [] →
      r.next_state = .collecting_time_preference ∧ r.requires_clarification = true) := by
  rw [turn_in_checking_availability env ctx llm e hstate] at h
  simp only [handle_availability_check, mergedCtx, hmr, Option.getD_some, ← havail] at h
  split at h
  · next hemp =>
    have hnil : avail = [] := by simpa using hemp
    simp only [Except.ok.injEq, Prod.mk.injEq] at h
    obtain ⟨hr, hc⟩ := h
    subst hr
    subst hc
    exact ⟨rfl, fun hne => absurd hnil hne, fun _ => ⟨rfl, rfl⟩⟩
  · next hemp =>
    have hne : avail ≠ [] := by simpa using hemp
    simp only [Except.ok.injEq, Prod.mk.injEq] at h
    obtain ⟨hr, hc⟩ := h
    subst hr
    subst hc
    refine ⟨rfl, fun _ => ⟨rfl, rfl, ?_, rfl⟩, fun hnil => absurd hnil hne⟩
    simp [List.length_take]

/-- C4 witness: the claim's scenario — five available slots returned — gives
    exactly three presented options, suggested actions
    `Option 1, Option 2, Option 3`, and next state `CONFIRMING_SLOT`. -/
theorem c4_availability_check_witness :
    (ConversationContext.current_available_slots
      ⟨.checking_availability, some mkDefaultMR, fiveSlots, none⟩ = fiveSlots) ∧
    (fiveSlots ≠ [] →
      TurnResult.next_state
        ⟨"Great! I found some available times:\n" ++ format_slot_options env5 (fiveSlots.take 3) ++
          "\nWhich one works for you?", .confirming_slot,
          some ["Option 1", "Option 2", "Option 3"], false⟩ = .confirming_slot ∧
      TurnResult.requires_clarification
        ⟨"Great! I found some available times:\n" ++ format_slot_options env5 (fiveSlots.take 3) ++
          "\nWhich one works for you?", .confirming_slot,
          some ["Option 1", "Option 2", "Option 3"], false⟩ = false ∧
      TurnResult.suggested_actions
        ⟨"Great! I found some available times:\n" ++ format_slot_options env5 (fiveSlots.take 3) ++
          "\nWhich one works for you?", .confirming_slot,
          some ["Option 1", "Option 2", "Option 3"], false⟩ =
        some ((List.range (min 3 fiveSlots.length)).map
          (fun i => "Option " ++ toString (i + 1))) ∧
      TurnResult.response
        ⟨"Great! I found some available times:\n" ++ format_slot_options env5 (fiveSlots.take 3) ++
          "\nWhich one works for you?", .confirming_slot,
          some ["Option 1", "Option 2", "Option 3"], false⟩ =
        "Great! I found some available times:\n" ++ format_slot_options env5 (fiveSlots.take 3) ++
          "\nWhich one works for you?") ∧
    (fiveSlots = [] →
      TurnResult.next_state
        ⟨"Great! I found some available times:\n" ++ format_slot_options env5 (fiveSlots.take 3) ++
          "\nWhich one works for you?", .confirming_slot,
          some ["Option 1", "Option 2", "Option 3"], false⟩ = .collecting_time_preference ∧
      TurnResult.requires_clarification
        ⟨"Great! I found some available times:\n" ++ format_slot_options env5 (fiveSlots.take 3) ++
          "\nWhich one works for you?", .confirming_slot,
          some ["Option 1", "Option 2", "Option 3"], false⟩ = true) :=
  c4_availability_check env5 ⟨.checking_availability, some mkDefaultMR, [], none⟩ "x"
    emptyExtraction mkDefaultMR
    ⟨"Great! I found some available times:\n" ++ format_slot_options env5 (fiveSlots.take 3) ++
      "\nWhich one works for you?", .confirming_slot,
      some ["Option 1", "Option 2", "Option 3"], false⟩
    ⟨.checking_availability, some mkDefaultMR, fiveSlots, none⟩
    fiveSlots rfl rfl (by decide) (by decide)

/-- C5: slot selection by `option N` is 1-indexed and bounds-checked — an
    in-bounds `N` selects slot `N − 1`, an out-of-bounds `N` (with no literal
    time-of-day substring match) selects nothing — and a turn in
    `CONFIRMING_SLOT` stores the chosen slot's start as `specific_time` and
    advances to `SCHEDULING` on a match, or loops with the clarification flag
    on no match. -/
theorem c5_slot_selection :
    (∀ (input : String) (slots : List TimeSlot) (n : Nat),
      findOptionNum (pyLower input.toList) = some n → 1 ≤ n → n ≤ slots.length →
      parse_slot_selection input slots = slots.get? (n - 1) ∧ (slots.get? (n - 1)).isSome) ∧
    (∀ (input : String) (slots : List TimeSlot) (n : Nat),
      findOptionNum (pyLower input.toList) = some n → ¬(1 ≤ n ∧ n ≤ slots.length) →
      (∀ s ∈ slots, pyIn (pyLower (fmtTime12 s.start_time).toList) (pyLower input.toList) = false) →
      parse_slot_selection input slots = none) ∧
    (∀ (env : Env) (ctx : ConversationContext) (llm : String) (e : ExtractedInfo)
      (r : TurnResult) (c' : ConversationContext),
      ctx.state = .confirming_slot →
      process_conversation_turn env ctx llm e = .ok (r, c') →
      (∀ slot, parse_slot_selection (ctx.last_user_input.getD "") ctx.current_available_slots =
          some slot →
        r.next_state = .scheduling ∧ r.requires_clarification = false ∧
        ∃ m', c'.meeting_request = some m' ∧ m'.specific_time = some slot.start_time) ∧
      (parse_slot_selection (ctx.last_user_input.getD "") ctx.current_available_slots = none →
        r.next_state = .confirming_slot ∧ r.requires_clarification = true)) := by
  refine ⟨?_, ?_, ?_⟩
  · intro input slots n hfind h1 hn
    have hlt : n - 1 < slots.length := by omega
    cases hg : slots.get? (n - 1) with
    | none =>
      rw [List.get?_eq_none] at hg
      omega
    | some s =>
      constructor
      · simp only [parse_slot_selection, hfind]
        have hcond : (decide (1 ≤ n) && decide (n ≤ slots.length)) = true := by
          simp [h1, hn]
        simp only [hcond, if_true, hg]
        rfl
      · simp [hg]
  · intro input slots n hfind hout hnosub
    simp only [parse_slot_selection, hfind]
    have hcond : (decide (1 ≤ n) && decide (n ≤ slots.length)) = false := by
      rcases Nat.lt_or_ge n 1 with hlt | hge
      · simp; omega
      · simp; omega
    simp only [hcond, if_false]
    have hfindnone : slots.find?
        (fun slot => pyIn (pyLower (fmtTime12 slot.start_time).toList) (pyLower input.toList)) =
        none := by
      apply List.find?_eq_none.mpr
      intro x hx
      simpa using hnosub x hx
    exact hfindnone
  · intro env ctx llm e r c' hstate h
    rw [turn_in_confirming_slot env ctx llm e hstate] at h
    simp only [handle_slot_confirmation, mergedCtx] at h
    constructor
    · intro slot hsel
      rw [hsel] at h
      simp only [Except.ok.injEq, Prod.mk.injEq] at h
      obtain ⟨hr, hc⟩ := h
      subst hr
      subst hc
      exact ⟨rfl, rfl, _, rfl, rfl⟩
    · intro hsel
      rw [hsel] at h
      simp only [Except.ok.injEq, Prod.mk.injEq] at h
      obtain ⟨hr, _⟩ := h
      subst hr
      exact ⟨rfl, rfl⟩

/-- C5 witness: the claim's scenario — "Option 4" against a three-slot list
    (whose formatted start times do not occur in the input) selects nothing,
    while "option 2" selects the second slot. -/
theorem c5_slot_selection_witness :
    parse_slot_selection "Option 4" threeSlots = none ∧
    parse_slot_selection "option 2" threeSlots = some ⟨⟨660⟩, ⟨690⟩, true, none⟩ :=
  ⟨c5_slot_selection.2.1 "Option 4" threeSlots 4 (by decide) (by decide) (by decide),
   (c5_slot_selection.1 "option 2" threeSlots 2 (by decide) (by decide) (by decide)).1.trans
     (by decide)⟩

/-- C6: a turn in `SCHEDULING` with `specific_time` unset (after merging)
    regresses to `COLLECTING_TIME_PREFERENCE`; with it set, event creation is
    requested from the calendar collaborator, a created event advancing to
    `COMPLETED` and a `None` result entering the terminal `ERROR` state with
    the fixed apology text, which carries no slot data. -/
theorem c6_scheduling_outcomes (env : Env) (ctx : ConversationContext) (llm : String)
    (e : ExtractedInfo) (m : MeetingRequest) (r : TurnResult) (c' : ConversationContext)
    (hstate : ctx.state = .scheduling)
    (hmr : ctx.meeting_request = some m)
    (h : process_conversation_turn env ctx llm e = .ok (r, c')) :
    ((update_meeting_request m e).specific_time = none →
      r.next_state = .collecting_time_preference ∧ r.requires_clarification = true) ∧
    (∀ t, (update_meeting_request m e).specific_time = some t →
      (∀ ev, env.createEvent (update_meeting_request m e)
          ((update_meeting_request m e).title.getD "Meeting") = some ev →
        r.next_state = .completed ∧ r.requires_clarification = false) ∧
      (env.createEvent (update_meeting_request m e)
          ((update_meeting_request m e).title.getD "Meeting") = none →
        r.next_state = .error ∧ r.requires_clarification = true ∧
        r.response = "I encountered an error while scheduling your meeting. Please try again or contact support if the issue persists.")) := by
  rw [turn_in_scheduling env ctx llm e hstate] at h
  simp only [handle_scheduling, mergedCtx, hmr, Option.getD_some] at h
  constructor
  · intro hnone
    rw [hnone] at h
    simp only [Except.ok.injEq, Prod.mk.injEq] at h
    obtain ⟨hr, _⟩ := h
    subst hr
    exact ⟨rfl, rfl⟩
  · intro t hsome
    rw [hsome] at h
    constructor
    · intro ev hev
      rw [hev] at h
      simp only [Except.ok.injEq, Prod.mk.injEq] at h
      obtain ⟨hr, _⟩ := h
      subst hr
      exact ⟨rfl, rfl⟩
    · intro hnone
      rw [hnone] at h
      simp only [Except.ok.injEq, Prod.mk.injEq] at h
      obtain ⟨hr, _⟩ := h
      subst hr
      exact ⟨rfl, rfl, rfl⟩

/-- C6 witness: the claim's scenario — the event-creation collaborator
    returns `None` for a scheduling turn with a set specific time — ends in
    the terminal `ERROR` state with the fixed apology response. -/
theorem c6_scheduling_outcomes_witness :
    ((update_meeting_request ⟨30, none, none, some ⟨1080⟩, none, none, none⟩ emptyExtraction).specific_time = none →
      TurnResult.next_state ⟨"I encountered an error while scheduling your meeting. Please try again or contact support if the issue persists.", .error, none, true⟩ = .collecting_time_preference ∧
      TurnResult.requires_clarification ⟨"I encountered an error while scheduling your meeting. Please try again or contact support if the issue persists.", .error, none, true⟩ = true) ∧
    (∀ t, (update_meeting_request ⟨30, none, none, some ⟨1080⟩, none, none, none⟩ emptyExtraction).specific_time = some t →
      (∀ ev, testEnv.createEvent (update_meeting_request ⟨30, none, none, some ⟨1080⟩, none, none, none⟩ emptyExtraction)
          ((update_meeting_request ⟨30, none, none, some ⟨1080⟩, none, none, none⟩ emptyExtraction).title.getD "Meeting") = some ev →
        TurnResult.next_state ⟨"I encountered an error while scheduling your meeting. Please try again or contact support if the issue persists.", .error, none, true⟩ = .completed ∧
        TurnResult.requires_clarification ⟨"I encountered an error while scheduling your meeting. Please try again or contact support if the issue persists.", .error, none, true⟩ = false) ∧
      (testEnv.createEvent (update_meeting_request ⟨30, none, none, some ⟨1080⟩, none, none, none⟩ emptyExtraction)
          ((update_meeting_request ⟨30, none, none, some ⟨1080⟩, none, none, none⟩ emptyExtraction).title.getD "Meeting") = none →
        TurnResult.next_state ⟨"I encountered an error while scheduling your meeting. Please try again or contact support if the issue persists.", .error, none, true⟩ = .error ∧
        TurnResult.requires_clarification ⟨"I encountered an error while scheduling your meeting. Please try again or contact support if the issue persists.", .error, none, true⟩ = true ∧
        TurnResult.response ⟨"I encountered an error while scheduling your meeting. Please try again or contact support if the issue persists.", .error, none, true⟩ =
          "I encountered an error while scheduling your meeting. Please try again or contact support if the issue persists.")) :=
  c6_scheduling_outcomes testEnv
    ⟨.scheduling, some ⟨30, none, none, some ⟨1080⟩, none, none, none⟩, [], none⟩ "x"
    emptyExtraction ⟨30, none, none, some ⟨1080⟩, none, none, none⟩
    ⟨"I encountered an error while scheduling your meeting. Please try again or contact support if the issue persists.", .error, none, true⟩
    ⟨.scheduling, some ⟨30, none, none, some ⟨1080⟩, none, none, none⟩, [], none⟩
    rfl rfl (by decide)
